import Mathlib

/-!
Verification of the workers-builds-notifications notification subsystem.

The TypeScript sources embedded here (shallowly) are:
- `src/index.ts` (queue handler),
- `src/notifiers/slack.ts` (SlackNotifier),
- `src/notifiers/discord.ts` (DiscordNotifier),
- `src/notificationManager.ts` (sendNotifications),
- `src/notifiers/base.ts` (NotificationData).

`src/helpers.ts` (getBuildStatus, isProductionBranch, extractAuthorName,
getCommitUrl, getDashboardUrl, extractBuildError) and `src/notifiers/lark.ts`
are not part of the available sources; those definitions are modelled from the
specification (each marked `Modelled from the spec:`).

JavaScript truthiness on `string | null | undefined` values is modelled by
`jsTruthy` over `Option String` (`none` and `some ""` are falsy); exceptions
(property access on `undefined`) are modelled with `Except String`.
-/

-- =============================================================================
-- String utilities
-- =============================================================================

/-- Char-list version of `isPrefixOf` (used to model JS `String.includes`). -/
def charListHasPre : List Char → List Char → Bool
  | [], _ => true
  | _ :: _, [] => false
  | a :: as, b :: bs => a == b && charListHasPre as bs

/-- Scans a char list for an occurrence of `pat`. -/
def containsAux (pat : List Char) : List Char → Bool
  | [] => charListHasPre pat []
  | c :: rest => charListHasPre pat (c :: rest) || containsAux pat rest

/-- Models JS `s.includes(pat)`. -/
def strContains (s pat : String) : Bool := containsAux pat.data s.data

/-- Models JS `s.startsWith(pre)` (used by payload-kind classifiers). -/
def strStarts (s pre : String) : Bool := charListHasPre pre.data s.data

/-- JS truthiness of a `string | null | undefined` value. -/
def jsTruthy : Option String → Bool
  | none => false
  | some s => !(s == "")

/-- Models the JS expression `a || b` on `string | null` values. -/
def jsOr (a b : Option String) : Option String := if jsTruthy a then a else b

-- =============================================================================
-- Data model (src/types.ts as consumed by the core, src/notifiers/base.ts)
-- =============================================================================

/-- Embeds `payload.buildTriggerMetadata` (all fields optional at runtime). -/
structure BuildTriggerMetadata where
  branch : Option String
  commitHash : Option String
  commitMessage : Option String
  author : Option String
  repoName : Option String
  providerAccountName : Option String
  providerType : Option String
deriving DecidableEq, Repr

/-- Embeds `event.payload`. -/
structure BuildPayloadData where
  buildUuid : String
  status : String
  buildOutcome : Option String
  createdAt : String
  stoppedAt : Option String
  buildTriggerMetadata : Option BuildTriggerMetadata
deriving DecidableEq, Repr

/-- Embeds `event.metadata` (fields the core reads). -/
structure EventMetadata where
  accountId : String
  eventTimestamp : String
deriving DecidableEq, Repr

/-- A build event as received at runtime.  `payload` and `metadata` are
`Option` because `index.ts` validates their presence (`!event?.payload`);
`workerName` models `event.source?.workerName`; an absent/empty `type` is
modelled by `""` (the falsy check `!event?.type`). -/
structure CloudflareEvent where
  type : String
  workerName : Option String
  payload : Option BuildPayloadData
  metadata : Option EventMetadata
deriving DecidableEq, Repr

/-- Embeds `NotificationData` from src/notifiers/base.ts. -/
structure NotificationData where
  event : CloudflareEvent
  previewUrl : Option String
  liveUrl : Option String
  logs : List String
deriving DecidableEq, Repr

/-- The derived build status record. -/
structure BuildStatus where
  isSucceeded : Bool
  isFailed : Bool
  isCancelled : Bool
deriving DecidableEq, Repr

/-- The `buildOutcome` reached through the optional payload
(`event.payload?.buildOutcome`). -/
def eventOutcome (e : CloudflareEvent) : Option String :=
  e.payload.bind (fun p => p.buildOutcome)

-- =============================================================================
-- Helpers (src/helpers.ts — not among the available sources)
-- =============================================================================

/-- Modelled from the spec: `getBuildStatus` (src/helpers.ts, missing from
src/).  "isSucceeded iff buildOutcome == \"success\" (or event type contains
\"succeeded\"); isFailed iff outcome is failure-like (including \"cancelled\");
isCancelled iff outcome == \"cancelled\" specifically"; pure function of
`event.type` and `payload.buildOutcome`. -/
def getBuildStatus (e : CloudflareEvent) : BuildStatus :=
  let outcome := eventOutcome e
  { isSucceeded := outcome == some "success" || strContains e.type "succeeded"
    isFailed := outcome == some "failure" || outcome == some "cancelled"
    isCancelled := outcome == some "cancelled" }

/-- Modelled from the spec: the designated production branch, "exact match
against a configured production-branch name, default `\"main\"`". -/
def PRODUCTION_BRANCH : String := "main"

/-- Modelled from the spec: `isProductionBranch` (src/helpers.ts, missing from
src/) — exact match of the triggering branch against the production branch. -/
def isProductionBranch (branch : Option String) : Bool :=
  branch == some PRODUCTION_BRANCH

/-- Modelled from the spec: `extractAuthorName` (src/helpers.ts, missing from
src/) — "derived from an email-like string by taking the portion before `@`,
or used verbatim if not email-shaped". -/
def extractAuthorName : Option String → Option String
  | none => none
  | some s => if strContains s "@" then some ((s.splitOn "@").headD s) else some s

/-- Modelled from the spec: `getCommitUrl` (src/helpers.ts, missing from
src/) — "optional link to the source-host commit view", built from the
provider, account, repository and commit hash when all are present. -/
def getCommitUrl (e : CloudflareEvent) : Option String :=
  match e.payload.bind (fun p => p.buildTriggerMetadata) with
  | none => none
  | some m =>
    match m.providerType, m.providerAccountName, m.repoName, m.commitHash with
    | some "github", some acc, some repo, some h =>
        some ("https://github.com/" ++ acc ++ "/" ++ repo ++ "/commit/" ++ h)
    | _, _, _, _ => none

/-- Modelled from the spec: `getDashboardUrl` (src/helpers.ts, missing from
src/) — "a dashboard URL (constructed from accountId + buildUuid)"; `none`
when the event lacks the pieces. -/
def getDashboardUrl (e : CloudflareEvent) : Option String :=
  match e.metadata, e.payload with
  | some m, some p =>
      some ("https://dash.cloudflare.com/" ++ m.accountId ++ "/workers/builds/"
        ++ p.buildUuid)
  | _, _ => none

-- =============================================================================
-- Error extractor (src/helpers.ts — not among the available sources)
-- =============================================================================

/-- Modelled from the spec: the metadata denylist — "lines reporting upload
size, startup time, etc. are excluded by a denylist pattern". -/
def isMetadataLine (line : String) : Bool :=
  strContains line "Total Upload" || strContains line "Worker Startup Time"

/-- Modelled from the spec: the error-indicator pattern — "contains `[ERROR]`
or a designated error glyph". -/
def isErrorIndicator (line : String) : Bool :=
  strContains line "[ERROR]" || strContains line "✘"

/-- Modelled from the spec: a line is an error marker if it matches the
error-indicator pattern and is not a pure metadata line. -/
def isErrorMarker (line : String) : Bool :=
  isErrorIndicator line && !(isMetadataLine line)

/-- Modelled from the spec: a stack-trace continuation line is a line "with
leading whitespace". -/
def isContinuationLine (line : String) : Bool :=
  match line.data with
  | [] => false
  | c :: _ => c == ' ' || c == '\t'

/-- Modelled from the spec: accumulate the continuation lines immediately
following an error marker, "stopping at the first non-continuation line or
next error marker". -/
def takeContinuations : List String → List String
  | [] => []
  | l :: rest =>
    if isContinuationLine l && !(isErrorMarker l) then l :: takeContinuations rest
    else []

/-- Modelled from the spec: find the first qualifying error block (marker line
plus its continuation lines). -/
def findFirstErrorBlock : List String → Option (List String)
  | [] => none
  | l :: rest =>
    if isErrorMarker l then some (l :: takeContinuations rest)
    else findFirstErrorBlock rest

/-- Modelled from the spec: `extractBuildError` (src/helpers.ts, missing from
src/) — return the first qualifying error block; "if no line matches, fall
back to returning the last non-empty line, or the fallback literal if none
exists"; `"No logs available"` for the empty sequence. -/
def extractBuildError (logs : List String) : String :=
  match findFirstErrorBlock logs with
  | some block => String.intercalate "\n" block
  | none =>
    match logs.reverse.find? (fun l => !(l == "")) with
    | some l => l
    | none => "No logs available"

-- =============================================================================
-- Slack notifier (src/notifiers/slack.ts)
-- =============================================================================

/-- A Slack Block Kit button accessory (the fields the source sets). -/
structure SlackButton where
  text : String
  url : String
  style : Option String
deriving DecidableEq, Repr

/-- A Slack section block: mrkdwn text plus an optional button accessory. -/
structure SlackSection where
  text : String
  accessory : Option SlackButton
deriving DecidableEq, Repr

/-- A Slack block as produced by the source (sections and context blocks;
context elements are mrkdwn texts). -/
inductive SlackBlock
  | section (s : SlackSection)
  | context (elements : List String)
deriving DecidableEq, Repr

/-- Embeds `SlackPayload` from src/notifiers/slack.ts. -/
structure SlackPayload where
  blocks : List SlackBlock
deriving DecidableEq, Repr

/-- Embeds `buildSectionBlock` from src/notifiers/slack.ts: the accessory is attached
only when both `buttonText` and `buttonUrl` are truthy, and `style` only when
truthy. -/
def buildSectionBlock (text : String) (buttonText : Option String)
    (buttonUrl : Option String) (buttonStyle : Option String) : SlackBlock :=
  if jsTruthy buttonText && jsTruthy buttonUrl then
    SlackBlock.section
      { text := text
        accessory := some
          { text := buttonText.getD ""
            url := buttonUrl.getD ""
            style := if jsTruthy buttonStyle then buttonStyle else none } }
  else
    SlackBlock.section { text := text, accessory := none }

/-- Models `event.source?.workerName || "Worker"`. -/
def workerNameOf (e : CloudflareEvent) : String :=
  if jsTruthy e.workerName then e.workerName.getD "" else "Worker"

/-- Embeds `buildContextElements` from src/notifiers/slack.ts: mrkdwn elements for
branch, shortened commit hash (optionally linked), and author. -/
def buildContextElements (e : CloudflareEvent) : List String :=
  let meta := e.payload.bind (fun p => p.buildTriggerMetadata)
  let commitUrl := getCommitUrl e
  let branchOpt := meta.bind (fun m => m.branch)
  let hashOpt := meta.bind (fun m => m.commitHash)
  let authorName := extractAuthorName (meta.bind (fun m => m.author))
  (if jsTruthy branchOpt then ["*Branch:* `" ++ branchOpt.getD "" ++ "`"] else [])
  ++ (if jsTruthy hashOpt then
        ["*Commit:* " ++
          (if jsTruthy commitUrl then
            "<" ++ commitUrl.getD "" ++ "|" ++ (hashOpt.getD "").take 7 ++ ">"
          else "`" ++ (hashOpt.getD "").take 7 ++ "`")]
      else [])
  ++ (if jsTruthy authorName then ["*Author:* " ++ authorName.getD ""] else [])

/-- Embeds `buildSuccessMessage` from src/notifiers/slack.ts. -/
def slackBuildSuccessMessage (e : CloudflareEvent) (isProduction : Bool)
    (previewUrl liveUrl : Option String) : SlackPayload :=
  let workerName := workerNameOf e
  let dashUrl := getDashboardUrl e
  let title := if isProduction then "Production Deploy" else "Preview Deploy"
  let buttonText :=
    if isProduction then (if jsTruthy liveUrl then "View Worker" else "View Build")
    else (if jsTruthy previewUrl then "View Preview" else "View Build")
  let buttonUrl := if isProduction then jsOr liveUrl dashUrl else jsOr previewUrl dashUrl
  let blocks := [buildSectionBlock ("✅  *" ++ title ++ "*\n*" ++ workerName ++ "*")
    (some buttonText) buttonUrl none]
  let contextElements := buildContextElements e
  { blocks := blocks ++
      (if contextElements.length > 0 then [SlackBlock.context contextElements] else []) }

/-- Embeds `buildFailureMessage` from src/notifiers/slack.ts. -/
def slackBuildFailureMessage (e : CloudflareEvent) (logs : List String) : SlackPayload :=
  let workerName := workerNameOf e
  let dashUrl := getDashboardUrl e
  let error := extractBuildError logs
  let blocks := [buildSectionBlock ("❌  *Build Failed*\n*" ++ workerName ++ "*")
    (if jsTruthy dashUrl then some "View Logs" else none) dashUrl (some "danger")]
  let contextElements := buildContextElements e
  { blocks := blocks ++
      (if contextElements.length > 0 then [SlackBlock.context contextElements] else [])
      ++ [SlackBlock.section { text := "```" ++ error ++ "```", accessory := none }] }

/-- Embeds `buildCancelledMessage` from src/notifiers/slack.ts. -/
def slackBuildCancelledMessage (e : CloudflareEvent) : SlackPayload :=
  let workerName := workerNameOf e
  let dashUrl := getDashboardUrl e
  let blocks := [buildSectionBlock ("⚠️  *Build Cancelled*\n*" ++ workerName ++ "*")
    (if jsTruthy dashUrl then some "View Build" else none) dashUrl none]
  let contextElements := buildContextElements e
  { blocks := blocks ++
      (if contextElements.length > 0 then [SlackBlock.context contextElements] else []) }

/-- Embeds `buildFallbackMessage` from src/notifiers/slack.ts
(`event.type || "Unknown event"`). -/
def slackBuildFallbackMessage (e : CloudflareEvent) : SlackPayload :=
  { blocks := [SlackBlock.section
      { text := "📢 " ++ (if e.type == "" then "Unknown event" else e.type)
        accessory := none }] }

/-- Embeds `SlackNotifier.buildPayload` from src/notifiers/slack.ts: dispatch on the
classified status, checking `isSucceeded`, then `isFailed`, then
`isCancelled`, in that source order. -/
def slackBuildPayload (data : NotificationData) : SlackPayload :=
  let e := data.event
  let status := getBuildStatus e
  let meta := e.payload.bind (fun p => p.buildTriggerMetadata)
  let isProduction := isProductionBranch (meta.bind (fun m => m.branch))
  if status.isSucceeded then slackBuildSuccessMessage e isProduction data.previewUrl data.liveUrl
  else if status.isFailed then slackBuildFailureMessage e data.logs
  else if status.isCancelled then slackBuildCancelledMessage e
  else slackBuildFallbackMessage e

-- =============================================================================
-- Discord notifier (src/notifiers/discord.ts)
-- =============================================================================

/-- A Discord embed field. -/
structure DiscordEmbedField where
  name : String
  value : String
  inline : Option Bool
deriving DecidableEq, Repr

/-- A Discord embed (the fields the source sets; an absent `fields` key is
modelled as `[]`). -/
structure DiscordEmbed where
  title : Option String
  description : Option String
  color : Option Nat
  fields : List DiscordEmbedField
  timestamp : Option String
  url : Option String
deriving DecidableEq, Repr

/-- Embeds `DiscordPayload` from src/notifiers/discord.ts. -/
structure DiscordPayload where
  embeds : List DiscordEmbed
deriving DecidableEq, Repr

/-- Discord embed colors from src/notifiers/discord.ts. -/
def DISCORD_COLOR_SUCCESS : Nat := 0x28a745
def DISCORD_COLOR_FAILURE : Nat := 0xdc3545
def DISCORD_COLOR_CANCELLED : Nat := 0xffc107
def DISCORD_COLOR_DEFAULT : Nat := 0x0366d6

/-- Embeds `buildMetadataFields` from src/notifiers/discord.ts. -/
def buildMetadataFields (e : CloudflareEvent) : List DiscordEmbedField :=
  let meta := e.payload.bind (fun p => p.buildTriggerMetadata)
  let commitUrl := getCommitUrl e
  let branchOpt := meta.bind (fun m => m.branch)
  let hashOpt := meta.bind (fun m => m.commitHash)
  let authorName := extractAuthorName (meta.bind (fun m => m.author))
  (if jsTruthy branchOpt then
      [{ name := "Branch", value := "`" ++ branchOpt.getD "" ++ "`", inline := some true }]
    else [])
  ++ (if jsTruthy hashOpt then
        [{ name := "Commit"
           value :=
             if jsTruthy commitUrl then
               "[`" ++ (hashOpt.getD "").take 7 ++ "`](" ++ commitUrl.getD "" ++ ")"
             else "`" ++ (hashOpt.getD "").take 7 ++ "`"
           inline := some true }]
      else [])
  ++ (if jsTruthy authorName then
        [{ name := "Author", value := authorName.getD "", inline := some true }]
      else [])

/-- Models the expression `event.payload.stoppedAt || event.metadata.eventTimestamp`
from src/notifiers/discord.ts: the property accesses are not optional-chained,
so a missing `payload` or `metadata` raises a TypeError. -/
def discordTimestamp (e : CloudflareEvent) : Except String String :=
  match e.payload with
  | none => Except.error "TypeError: event.payload is undefined"
  | some p =>
    if jsTruthy p.stoppedAt then Except.ok (p.stoppedAt.getD "")
    else
      match e.metadata with
      | none => Except.error "TypeError: event.metadata is undefined"
      | some m => Except.ok m.eventTimestamp

/-- Embeds `buildSuccessMessage` from src/notifiers/discord.ts (the embed title text
is reproduced byte-for-byte from the source file). -/
def discordBuildSuccessMessage (e : CloudflareEvent) (isProduction : Bool)
    (previewUrl liveUrl : Option String) : Except String DiscordPayload :=
  match discordTimestamp e with
  | Except.error msg => Except.error msg
  | Except.ok ts =>
    let workerName := workerNameOf e
    let dashUrl := getDashboardUrl e
    let title := if isProduction then "Production Deploy" else "Preview Deploy"
    let url := if isProduction then jsOr liveUrl dashUrl else jsOr previewUrl dashUrl
    let fields := buildMetadataFields e ++
      (if isProduction && jsTruthy liveUrl then
          [{ name := "Worker URL", value := "[View Worker](" ++ liveUrl.getD "" ++ ")"
             inline := some false }]
        else if !isProduction && jsTruthy previewUrl then
          [{ name := "Preview URL", value := "[View Preview](" ++ previewUrl.getD "" ++ ")"
             inline := some false }]
        else [])
    Except.ok { embeds := [
      { title := some ("âś… " ++ title)
        description := some ("**" ++ workerName ++ "**")
        color := some DISCORD_COLOR_SUCCESS
        fields := fields
        timestamp := some ts
        url := if jsTruthy url then url else none }] }

/-- Embeds `buildFailureMessage` from src/notifiers/discord.ts. -/
def discordBuildFailureMessage (e : CloudflareEvent) (logs : List String) :
    Except String DiscordPayload :=
  match discordTimestamp e with
  | Except.error msg => Except.error msg
  | Except.ok ts =>
    let workerName := workerNameOf e
    let dashUrl := getDashboardUrl e
    let error := extractBuildError logs
    let fields := buildMetadataFields e
      ++ [{ name := "Error", value := "```\n" ++ error.take 1000 ++ "\n```"
            inline := some false }]
      ++ (if jsTruthy dashUrl then
            [{ name := "Logs", value := "[View Full Logs](" ++ dashUrl.getD "" ++ ")"
               inline := some false }]
          else [])
    Except.ok { embeds := [
      { title := some "âťŚ Build Failed"
        description := some ("**" ++ workerName ++ "**")
        color := some DISCORD_COLOR_FAILURE
        fields := fields
        timestamp := some ts
        url := none }] }

/-- Embeds `buildCancelledMessage` from src/notifiers/discord.ts. -/
def discordBuildCancelledMessage (e : CloudflareEvent) : Except String DiscordPayload :=
  match discordTimestamp e with
  | Except.error msg => Except.error msg
  | Except.ok ts =>
    let workerName := workerNameOf e
    let dashUrl := getDashboardUrl e
    let fields := buildMetadataFields e
      ++ (if jsTruthy dashUrl then
            [{ name := "Build Details", value := "[View Build](" ++ dashUrl.getD "" ++ ")"
               inline := some false }]
          else [])
    Except.ok { embeds := [
      { title := some "âš ď¸Ź Build Cancelled"
        description := some ("**" ++ workerName ++ "**")
        color := some DISCORD_COLOR_CANCELLED
        fields := fields
        timestamp := some ts
        url := none }] }

/-- Embeds `buildFallbackMessage` from src/notifiers/discord.ts (reads
`event.metadata.eventTimestamp` without optional chaining). -/
def discordBuildFallbackMessage (e : CloudflareEvent) : Except String DiscordPayload :=
  match e.metadata with
  | none => Except.error "TypeError: event.metadata is undefined"
  | some m =>
    Except.ok { embeds := [
      { title := some "đź“˘ Build Event"
        description := some (if e.type == "" then "Unknown event" else e.type)
        color := some DISCORD_COLOR_DEFAULT
        fields := []
        timestamp := some m.eventTimestamp
        url := none }] }

/-- Embeds `DiscordNotifier.buildPayload` from src/notifiers/discord.ts: dispatch on
the classified status, checking `isSucceeded`, then `isFailed`, then
`isCancelled`, in that source order. -/
def discordBuildPayload (data : NotificationData) : Except String DiscordPayload :=
  let e := data.event
  let status := getBuildStatus e
  let meta := e.payload.bind (fun p => p.buildTriggerMetadata)
  let isProduction := isProductionBranch (meta.bind (fun m => m.branch))
  if status.isSucceeded then
    discordBuildSuccessMessage e isProduction data.previewUrl data.liveUrl
  else if status.isFailed then discordBuildFailureMessage e data.logs
  else if status.isCancelled then discordBuildCancelledMessage e
  else discordBuildFallbackMessage e

-- =============================================================================
-- Lark notifier (src/notifiers/lark.ts — not among the available sources)
-- =============================================================================

/-- Modelled from the spec: the Lark payload (src/notifiers/lark.ts, missing
from src/) — "msg_type interactive" with a card whose header title carries the
message kind; only the parts the dispatch claims need are modelled. -/
structure LarkPayload where
  msg_type : String
  headerTitle : String
deriving DecidableEq, Repr

/-- Modelled from the spec: `LarkNotifier.buildPayload` (src/notifiers/lark.ts,
missing from src/) — same four message kinds, rendered as an interactive card. -/
def larkBuildPayload (data : NotificationData) : LarkPayload :=
  let e := data.event
  let status := getBuildStatus e
  let meta := e.payload.bind (fun p => p.buildTriggerMetadata)
  let isProduction := isProductionBranch (meta.bind (fun m => m.branch))
  { msg_type := "interactive"
    headerTitle :=
      if status.isSucceeded then
        (if isProduction then "Production Deploy" else "Preview Deploy")
      else if status.isFailed then "Build Failed"
      else if status.isCancelled then "Build Cancelled"
      else "Build Event" }

-- =============================================================================
-- Dispatch coordinator (src/notificationManager.ts)
-- =============================================================================

/-- The supported platforms, in the order of the `NOTIFIERS` registry. -/
inductive Platform
  | slack
  | lark
  | discord
deriving DecidableEq, Repr

/-- The registry order of src/notificationManager.ts. -/
def NOTIFIERS : List Platform := [Platform.slack, Platform.lark, Platform.discord]

/-- A platform payload (the `unknown` of `Notifier.buildPayload`). -/
inductive Payload
  | slack (p : SlackPayload)
  | lark (p : LarkPayload)
  | discord (p : DiscordPayload)
deriving DecidableEq, Repr

/-- Embeds `notifier.buildPayload(data)` for each registry entry; Discord's builder
can raise (see `discordTimestamp`), the others cannot. -/
def buildPayloadOf (p : Platform) (data : NotificationData) : Except String Payload :=
  match p with
  | Platform.slack => Except.ok (Payload.slack (slackBuildPayload data))
  | Platform.lark => Except.ok (Payload.lark (larkBuildPayload data))
  | Platform.discord => (discordBuildPayload data).map Payload.discord

/-- The environment bindings read by the coordinator; an unset variable is
modelled by `""` (both are falsy in the source's checks). -/
structure Env where
  SLACK_WEBHOOK_URL : String
  LARK_WEBHOOK_URL : String
  DISCORD_WEBHOOK_URL : String
deriving DecidableEq, Repr

/-- Embeds `env[webhookUrlKey]` for each registry entry. -/
def notifierUrl (env : Env) : Platform → String
  | Platform.slack => env.SLACK_WEBHOOK_URL
  | Platform.lark => env.LARK_WEBHOOK_URL
  | Platform.discord => env.DISCORD_WEBHOOK_URL

/-- An observable call made while processing one event: the enrichment
fetches of src/index.ts and the per-notifier build/send calls of
src/notificationManager.ts. -/
inductive Call
  | callFetchUrls
  | callFetchLogs
  | callBuild (p : Platform)
  | callSend (p : Platform) (pl : Payload)
deriving DecidableEq, Repr

/-- One notifier's task from `sendNotifications`: build the payload, send it,
and catch any error (`try { ... } catch (error) { console.error(...) }`).
Returns the calls made and the logged error, if any. -/
def runNotifier (data : NotificationData) (sendOutcome : Platform → Except String Unit)
    (p : Platform) : List Call × Option String :=
  match buildPayloadOf p data with
  | Except.error msg => ([Call.callBuild p], some msg)
  | Except.ok pl =>
    match sendOutcome p with
    | Except.error msg => ([Call.callBuild p, Call.callSend p pl], some msg)
    | Except.ok _ => ([Call.callBuild p, Call.callSend p pl], none)

/-- The loop of `sendNotifications` over the registry: unconfigured platforms
are skipped, each configured platform runs its own (caught) task. -/
def sendLoop (data : NotificationData) (env : Env)
    (sendOutcome : Platform → Except String Unit) : List Platform → List Call
  | [] => []
  | p :: rest =>
    (if notifierUrl env p == "" then [] else (runNotifier data sendOutcome p).1)
    ++ sendLoop data env sendOutcome rest

/-- The configured platforms (those whose webhook URL is truthy). -/
def configuredPlatforms (env : Env) : List Platform :=
  NOTIFIERS.filter (fun p => !(notifierUrl env p == ""))

/-- Embeds `sendNotifications` from src/notificationManager.ts: returns the calls
made and whether the no-webhook warning was logged.  Per-notifier failures are
caught inside `runNotifier`, so the function always returns normally. -/
def sendNotifications (data : NotificationData) (env : Env)
    (sendOutcome : Platform → Except String Unit) : List Call × Bool :=
  (sendLoop data env sendOutcome NOTIFIERS, (configuredPlatforms env).isEmpty)

-- =============================================================================
-- Queue handler (src/index.ts)
-- =============================================================================

/-- The external collaborators of the queue handler: the enrichment fetchers
(which may throw) and the per-platform send outcome (non-2xx responses and
transport errors are `Except.error`). -/
structure Oracles where
  fetchBuildUrls : CloudflareEvent → Except String (Option String × Option String)
  fetchBuildLogs : CloudflareEvent → Except String (List String)
  sendOutcome : Platform → Except String Unit

/-- The enrichment step of src/index.ts: URLs for succeeded builds, logs for
failed-and-not-cancelled builds, nothing otherwise.  Returns the fetch calls
made alongside the result (the calls happen even when the fetch throws). -/
def enrichPhase (orc : Oracles) (e : CloudflareEvent) (st : BuildStatus) :
    List Call × Except String (Option String × Option String × List String) :=
  if st.isSucceeded then
    match orc.fetchBuildUrls e with
    | Except.error msg => ([Call.callFetchUrls], Except.error msg)
    | Except.ok (pu, lu) => ([Call.callFetchUrls], Except.ok (pu, lu, []))
  else if st.isFailed && !st.isCancelled then
    match orc.fetchBuildLogs e with
    | Except.error msg => ([Call.callFetchLogs], Except.error msg)
    | Except.ok lgs => ([Call.callFetchLogs], Except.ok (none, none, lgs))
  else ([], Except.ok (none, none, []))

/-- Processing of one queue message inside the per-message `try`/`catch` of
src/index.ts.  Returns the calls made and the number of `message.ack()` calls:
every branch — invalid structure, skipped started/queued event, a thrown
enrichment error (caught), and normal completion — acks exactly once. -/
def processMessage (orc : Oracles) (env : Env) (body : Option CloudflareEvent) :
    List Call × Nat :=
  match body with
  | none => ([], 1)
  | some e =>
    if e.type == "" then ([], 1)
    else if e.payload == none then ([], 1)
    else if e.metadata == none then ([], 1)
    else if strContains e.type "started" || strContains e.type "queued" then ([], 1)
    else
      let st := getBuildStatus e
      match enrichPhase orc e st with
      | (calls, Except.error _) => (calls, 1)
      | (calls, Except.ok (pu, lu, lgs)) =>
        let res := sendNotifications
          { event := e, previewUrl := pu, liveUrl := lu, logs := lgs } env orc.sendOutcome
        (calls ++ res.1, 1)

/-- The per-message loop of the queue handler. -/
def queueLoop (orc : Oracles) (env : Env) :
    List (Option CloudflareEvent) → List Call × List Nat
  | [] => ([], [])
  | m :: rest =>
    let r := processMessage orc env m
    let rs := queueLoop orc env rest
    (r.1 ++ rs.1, r.2 :: rs.2)

/-- Embeds `hasWebhook` from src/index.ts
(`env.SLACK_WEBHOOK_URL || env.LARK_WEBHOOK_URL || env.DISCORD_WEBHOOK_URL`). -/
def hasWebhook (env : Env) : Bool :=
  !(env.SLACK_WEBHOOK_URL == "") || !(env.LARK_WEBHOOK_URL == "")
    || !(env.DISCORD_WEBHOOK_URL == "")

/-- The `queue` handler from src/index.ts: with no webhook configured every
message is acked immediately; otherwise each message is processed in order.
Returns the calls made and the per-message ack counts. -/
def queue (orc : Oracles) (env : Env) (batch : List (Option CloudflareEvent)) :
    List Call × List Nat :=
  if hasWebhook env then queueLoop orc env batch
  else ([], batch.map (fun _ => 1))

-- =============================================================================
-- Cross-platform content abstraction (for the parity statements)
-- =============================================================================

/-- The semantic metadata content shared by the platform builders: the branch,
the shortened commit hash with its optional commit link, and the author
display name. -/
inductive MetaItem
  | branch (b : String)
  | commit (short : String) (url : Option String)
  | author (name : String)
deriving DecidableEq, Repr

/-- The semantic metadata items of an event, in the order the builders render
them (branch, commit, author), guarded by the builders' truthiness checks. -/
def metadataItems (e : CloudflareEvent) : List MetaItem :=
  let meta := e.payload.bind (fun p => p.buildTriggerMetadata)
  let commitUrl := getCommitUrl e
  let branchOpt := meta.bind (fun m => m.branch)
  let hashOpt := meta.bind (fun m => m.commitHash)
  let authorName := extractAuthorName (meta.bind (fun m => m.author))
  (if jsTruthy branchOpt then [MetaItem.branch (branchOpt.getD "")] else [])
  ++ (if jsTruthy hashOpt then
        [MetaItem.commit ((hashOpt.getD "").take 7)
          (if jsTruthy commitUrl then some (commitUrl.getD "") else none)]
      else [])
  ++ (if jsTruthy authorName then [MetaItem.author (authorName.getD "")] else [])

/-- Slack's rendering of one semantic metadata item (mrkdwn). -/
def renderSlackItem : MetaItem → String
  | MetaItem.branch b => "*Branch:* `" ++ b ++ "`"
  | MetaItem.commit short url =>
    "*Commit:* " ++
      (match url with
       | some u => "<" ++ u ++ "|" ++ short ++ ">"
       | none => "`" ++ short ++ "`")
  | MetaItem.author name => "*Author:* " ++ name

/-- Discord's rendering of one semantic metadata item (an embed field). -/
def renderDiscordItem : MetaItem → DiscordEmbedField
  | MetaItem.branch b => { name := "Branch", value := "`" ++ b ++ "`", inline := some true }
  | MetaItem.commit short url =>
    { name := "Commit"
      value :=
        match url with
        | some u => "[`" ++ short ++ "`](" ++ u ++ ")"
        | none => "`" ++ short ++ "`"
      inline := some true }
  | MetaItem.author name => { name := "Author", value := name, inline := some true }

/-- The four message kinds of the spec. -/
inductive MsgKind
  | success
  | failure
  | cancelled
  | fallback
deriving DecidableEq, Repr

/-- The text of the first block of a Slack payload. -/
def slackFirstText (p : SlackPayload) : Option String :=
  match p.blocks with
  | SlackBlock.section s :: _ => some s.text
  | _ => none

/-- The button accessory of the first block of a Slack payload. -/
def slackFirstAccessory (p : SlackPayload) : Option SlackButton :=
  match p.blocks with
  | SlackBlock.section s :: _ => s.accessory
  | _ => none

/-- The message kind of a Slack payload, read off the first block's leading
glyph. -/
def slackKind (p : SlackPayload) : Option MsgKind :=
  match slackFirstText p with
  | none => none
  | some t =>
    if strStarts t "✅" then some MsgKind.success
    else if strStarts t "❌" then some MsgKind.failure
    else if strStarts t "⚠️" then some MsgKind.cancelled
    else if strStarts t "📢" then some MsgKind.fallback
    else none

/-- The first embed of a Discord payload. -/
def discordFirstEmbed (p : DiscordPayload) : Option DiscordEmbed :=
  p.embeds.head?

/-- The message kind of a Discord payload, read off the embed title's leading
glyph (as the glyphs are spelled in src/notifiers/discord.ts). -/
def discordKind (p : DiscordPayload) : Option MsgKind :=
  match (discordFirstEmbed p).bind (fun emb => emb.title) with
  | none => none
  | some t =>
    if strStarts t "âś" then some MsgKind.success
    else if strStarts t "âť" then some MsgKind.failure
    else if strStarts t "âš" then some MsgKind.cancelled
    else if strStarts t "đź" then some MsgKind.fallback
    else none

-- =============================================================================
-- Concrete fixtures (taken from the repository's test data)
-- =============================================================================

/-- The build-trigger metadata of the repository's mock event. -/
def testTriggerMetadata : BuildTriggerMetadata :=
  { branch := some "main"
    commitHash := some "abc123def456"
    commitMessage := some "Fix bug in authentication"
    author := some "developer@example.com"
    repoName := some "test-worker-repo"
    providerAccountName := some "cloudflare"
    providerType := some "github" }

/-- The metadata of the repository's mock event. -/
def testEventMetadata : EventMetadata :=
  { accountId := "test-account-id", eventTimestamp := "2025-05-01T02:48:57.132Z" }

/-- The cancelled-build event of the repository's test
("should send cancellation notification"): type `build.failed`,
`buildOutcome = "cancelled"`. -/
def cancelledEvent : CloudflareEvent :=
  { type := "cf.workersBuilds.worker.build.failed"
    workerName := some "test-worker"
    payload := some
      { buildUuid := "build-cancelled-123"
        status := "stopped"
        buildOutcome := some "cancelled"
        createdAt := "2025-05-01T02:48:57.132Z"
        stoppedAt := none
        buildTriggerMetadata := none }
    metadata := some testEventMetadata }

/-- The notification data assembled for `cancelledEvent` (no logs are fetched
for cancelled builds). -/
def cancelledData : NotificationData :=
  { event := cancelledEvent, previewUrl := none, liveUrl := none, logs := [] }

/-- A succeeded-build event with full metadata (the repository's mock event). -/
def succeededEvent : CloudflareEvent :=
  { type := "cf.workersBuilds.worker.build.succeeded"
    workerName := some "test-worker"
    payload := some
      { buildUuid := "build-12345678"
        status := "stopped"
        buildOutcome := some "success"
        createdAt := "2025-05-01T02:48:57.132Z"
        stoppedAt := some "2025-05-01T02:50:15.132Z"
        buildTriggerMetadata := some testTriggerMetadata }
    metadata := some testEventMetadata }

/-- An event whose type says succeeded but whose outcome is cancelled
(structurally valid and not skipped by the started/queued filter). -/
def succeededTypeCancelledEvent : CloudflareEvent :=
  { type := "cf.workersBuilds.worker.build.succeeded"
    workerName := some "test-worker"
    payload := some
      { buildUuid := "build-odd-1"
        status := "stopped"
        buildOutcome := some "cancelled"
        createdAt := "2025-05-01T02:48:57.132Z"
        stoppedAt := none
        buildTriggerMetadata := none }
    metadata := some testEventMetadata }

/-- A started event with a null outcome but a type containing "succeeded" is
impossible; this event has a null outcome and a succeeded type. -/
def nullOutcomeSucceededTypeEvent : CloudflareEvent :=
  { type := "cf.workersBuilds.worker.build.succeeded"
    workerName := some "test-worker"
    payload := some
      { buildUuid := "build-null-1"
        status := "stopped"
        buildOutcome := none
        createdAt := "2025-05-01T02:48:57.132Z"
        stoppedAt := none
        buildTriggerMetadata := none }
    metadata := some testEventMetadata }

/-- Oracles whose fetches and sends all succeed with empty results. -/
def oraclesOk : Oracles :=
  { fetchBuildUrls := fun _ => Except.ok (none, none)
    fetchBuildLogs := fun _ => Except.ok []
    sendOutcome := fun _ => Except.ok () }

/-- An environment with only Slack configured. -/
def envSlackOnly : Env :=
  { SLACK_WEBHOOK_URL := "https://hooks.slack.com/services/T/B/X"
    LARK_WEBHOOK_URL := ""
    DISCORD_WEBHOOK_URL := "" }

/-- An environment with Slack and Discord configured. -/
def envSlackDiscord : Env :=
  { SLACK_WEBHOOK_URL := "https://hooks.slack.com/services/T/B/X"
    LARK_WEBHOOK_URL := ""
    DISCORD_WEBHOOK_URL := "https://discord.com/api/webhooks/123/test" }

/-- An environment with nothing configured. -/
def envNone : Env :=
  { SLACK_WEBHOOK_URL := "", LARK_WEBHOOK_URL := "", DISCORD_WEBHOOK_URL := "" }

/-- A send behavior where Slack fails with HTTP 500 and the others succeed. -/
def sendSlackFails : Platform → Except String Unit
  | Platform.slack => Except.error "Slack API error: 500"
  | _ => Except.ok ()

/-- A structurally valid event with a null outcome and a type that does not
contain "succeeded" (the ordinary absent-outcome case). -/
def nullOutcomePlainEvent : CloudflareEvent :=
  { type := "cf.workersBuilds.worker.build.failed"
    workerName := some "test-worker"
    payload := some
      { buildUuid := "build-null-2"
        status := "stopped"
        buildOutcome := none
        createdAt := "2025-05-01T02:48:57.132Z"
        stoppedAt := none
        buildTriggerMetadata := none }
    metadata := some testEventMetadata }

/-- Notification data for the succeeded mock event. -/
def succeededData : NotificationData :=
  { event := succeededEvent
    previewUrl := none
    liveUrl := some "https://test-worker.my-account.workers.dev"
    logs := [] }

/-- A build payload with every optional field absent. -/
def minimalPayload : BuildPayloadData :=
  { buildUuid := "build-min-1"
    status := "stopped"
    buildOutcome := some "failure"
    createdAt := "2025-05-01T02:48:57.132Z"
    stoppedAt := none
    buildTriggerMetadata := none }

/-- A well-formed event with every optional field absent. -/
def minimalEvent : CloudflareEvent :=
  { type := "cf.workersBuilds.worker.build.failed"
    workerName := none
    payload := some minimalPayload
    metadata := some { accountId := "acc-1", eventTimestamp := "2025-05-01T02:48:57.132Z" } }

/-- Notification data for `minimalEvent` with no URLs and no logs. -/
def minimalData : NotificationData :=
  { event := minimalEvent, previewUrl := none, liveUrl := none, logs := [] }

/-- The platform a call belongs to (`none` for the enrichment fetches). -/
def callPlatform : Call → Option Platform
  | Call.callFetchUrls => none
  | Call.callFetchLogs => none
  | Call.callBuild p => some p
  | Call.callSend p _ => some p

-- =============================================================================
-- Theorems
-- =============================================================================

theorem charListHasPre_append_eq (pre : List Char) :
    ∀ (s t : List Char), pre.length ≤ s.length →
      charListHasPre pre (s ++ t) = charListHasPre pre s := by
  induction pre with
  | nil => intro s t _; rfl
  | cons a as ih =>
    intro s t h
    cases s with
    | nil => simp at h
    | cons b bs =>
      simp only [List.cons_append, charListHasPre, List.append_eq]
      rw [ih bs t (by simpa using h)]

theorem strStarts_append_left (s t pre : String) (h : pre.length ≤ s.length) :
    strStarts (s ++ t) pre = strStarts s pre := by
  unfold strStarts
  have hdata : (s ++ t).data = s.data ++ t.data := String.data_append s t
  rw [hdata]
  exact charListHasPre_append_eq _ _ _ h

theorem takeContinuations_mem :
    ∀ (post : List String) (x : String), x ∈ takeContinuations post →
      isContinuationLine x = true ∧ isErrorMarker x = false := by
  intro post
  induction post with
  | nil => intro x hx; simp [takeContinuations] at hx
  | cons l rest ih =>
    intro x hx
    unfold takeContinuations at hx
    by_cases hc : (isContinuationLine l && !isErrorMarker l) = true
    · rw [if_pos hc] at hx
      rcases List.mem_cons.mp hx with h | h
      · subst h
        have := Bool.and_eq_true_iff.mp hc
        exact ⟨this.1, by simpa using this.2⟩
      · exact ih x h
    · rw [if_neg hc] at hx
      simp at hx

theorem findFirstErrorBlock_append :
    ∀ (pre : List String) (l : String) (post : List String),
      (∀ x ∈ pre, isErrorMarker x = false) → isErrorMarker l = true →
      findFirstErrorBlock (pre ++ l :: post) = some (l :: takeContinuations post) := by
  intro pre
  induction pre with
  | nil =>
    intro l post _ hl
    simp [findFirstErrorBlock, hl]
  | cons x xs ih =>
    intro l post hpre hl
    have hx : isErrorMarker x = false := hpre x (List.mem_cons_self x xs)
    simp only [List.cons_append, findFirstErrorBlock, hx]
    simp only [Bool.false_eq_true, if_false]
    exact ih l post (fun y hy => hpre y (List.mem_cons_of_mem x hy)) hl

theorem findFirstErrorBlock_none :
    ∀ (logs : List String), (∀ l ∈ logs, isErrorMarker l = false) →
      findFirstErrorBlock logs = none := by
  intro logs
  induction logs with
  | nil => intro _; rfl
  | cons l rest ih =>
    intro h
    have hl : isErrorMarker l = false := h l (List.mem_cons_self l rest)
    simp only [findFirstErrorBlock, hl, Bool.false_eq_true, if_false]
    exact ih (fun y hy => h y (List.mem_cons_of_mem l hy))

theorem find?_eq_filter_head? (p : String → Bool) :
    ∀ (xs : List String), xs.find? p = (xs.filter p).head? := by
  intro xs
  induction xs with
  | nil => rfl
  | cons x rest ih =>
    by_cases h : p x = true
    · rw [List.find?_cons_of_pos _ h, List.filter_cons_of_pos h]
      rfl
    · rw [List.find?_cons_of_neg _ (by simpa using h),
        List.filter_cons_of_neg (by simpa using h)]
      exact ih

/-- C5: `extractBuildError` returns exactly `"No logs available"` on the empty
sequence; on a sequence with no error-indicator line it returns the last
non-empty line, or the same fallback literal when every line is empty. -/
theorem extractBuildError_empty_and_fallback :
    extractBuildError [] = "No logs available"
    ∧ ∀ (logs : List String), (∀ l ∈ logs, isErrorIndicator l = false) →
        extractBuildError logs
          = ((logs.filter (fun l => !(l == ""))).getLast?).getD "No logs available" := by
  refine ⟨rfl, ?_⟩
  intro logs h
  have hmarker : ∀ l ∈ logs, isErrorMarker l = false := by
    intro l hl
    simp [isErrorMarker, h l hl]
  unfold extractBuildError
  rw [findFirstErrorBlock_none logs hmarker]
  rw [find?_eq_filter_head?, List.filter_reverse, List.head?_reverse]
  cases (logs.filter (fun l => !(l == ""))).getLast? <;> rfl

/-- Witness for C5 at a concrete input. -/
theorem extractBuildError_empty_and_fallback_witness :
    extractBuildError ["Installing dependencies...", "Build done", ""]
      = (((["Installing dependencies...", "Build done", ""].filter
            (fun l => !(l == ""))).getLast?).getD "No logs available") :=
  extractBuildError_empty_and_fallback.2
    ["Installing dependencies...", "Build done", ""] (by decide)

/-- C4 (amended): on any log sequence whose first error marker is `l`,
`extractBuildError` returns exactly the first error block — the marker line
followed by its immediately following indented continuation lines; the marker
line is never a metadata denylist line, and no line of the block after the
marker is an error marker (so no later error block leaks into the result).
(The original claim's stronger reading — that metadata-denylist text can never
appear anywhere in the result — fails: an indented metadata line directly
after the marker is kept as a stack-trace continuation, see the
counterexample.) -/
theorem extractBuildError_first_block (pre : List String) (l : String)
    (post : List String)
    (hpre : ∀ x ∈ pre, isErrorMarker x = false)
    (hl : isErrorMarker l = true) :
    extractBuildError (pre ++ l :: post)
      = String.intercalate "\n" (l :: takeContinuations post)
    ∧ isMetadataLine l = false
    ∧ ∀ x ∈ takeContinuations post,
        isContinuationLine x = true ∧ isErrorMarker x = false := by
  refine ⟨?_, ?_, takeContinuations_mem post⟩
  · unfold extractBuildError
    rw [findFirstErrorBlock_append pre l post hpre hl]
  · have := Bool.and_eq_true_iff.mp hl
    simpa using this.2

/-- Witness for C4 (amended) at the repository's own test log sequence. -/
theorem extractBuildError_first_block_witness :
    extractBuildError
        (["Installing dependencies..."]
          ++ "✘ [ERROR] Could not resolve missing-module"
            :: ["    at /src/index.ts:10:5", "✘ [ERROR] Second error"])
      = String.intercalate "\n"
          ("✘ [ERROR] Could not resolve missing-module"
            :: takeContinuations ["    at /src/index.ts:10:5", "✘ [ERROR] Second error"])
    ∧ isMetadataLine "✘ [ERROR] Could not resolve missing-module" = false
    ∧ ∀ x ∈ takeContinuations ["    at /src/index.ts:10:5", "✘ [ERROR] Second error"],
        isContinuationLine x = true ∧ isErrorMarker x = false :=
  extractBuildError_first_block ["Installing dependencies..."]
    "✘ [ERROR] Could not resolve missing-module"
    ["    at /src/index.ts:10:5", "✘ [ERROR] Second error"]
    (by decide) (by decide)

/-- Counterexample for C4 as stated: an indented metadata denylist line
immediately after the first error marker is accumulated as a stack-trace
continuation, so its text does appear in the extractor's result. -/
theorem extractBuildError_metadata_in_result :
    isErrorMarker "✘ [ERROR] boom" = true
    ∧ isMetadataLine " Total Upload: 100 KiB" = true
    ∧ extractBuildError ["✘ [ERROR] boom", " Total Upload: 100 KiB"]
        = "✘ [ERROR] boom\n Total Upload: 100 KiB" := by
  refine ⟨by decide, by decide, by decide⟩

/-- Counterexample for C3 as stated: an event with an absent (`null`)
`buildOutcome` whose type contains "succeeded" does not get all three flags
false — the classifier's type clause sets `isSucceeded`. -/
theorem getBuildStatus_null_outcome_cex :
    eventOutcome nullOutcomeSucceededTypeEvent = none
    ∧ getBuildStatus nullOutcomeSucceededTypeEvent
        ≠ { isSucceeded := false, isFailed := false, isCancelled := false } := by
  refine ⟨rfl, by decide⟩

/-- C3 (amended): the classifier returns `isSucceeded` iff the outcome is
"success" or the type contains "succeeded", `isFailed` iff the outcome is
failure-like ("failure" or "cancelled"), `isCancelled` iff the outcome is
"cancelled"; it is total and pure by construction, and when `buildOutcome` is
absent or null then `isFailed` and `isCancelled` are false while
`isSucceeded` reduces to the type containing "succeeded". -/
theorem getBuildStatus_characterization (e : CloudflareEvent) :
    ((getBuildStatus e).isSucceeded = true
      ↔ (eventOutcome e = some "success" ∨ strContains e.type "succeeded" = true))
    ∧ ((getBuildStatus e).isFailed = true
      ↔ (eventOutcome e = some "failure" ∨ eventOutcome e = some "cancelled"))
    ∧ ((getBuildStatus e).isCancelled = true ↔ eventOutcome e = some "cancelled")
    ∧ (eventOutcome e = none →
        (getBuildStatus e).isFailed = false
        ∧ (getBuildStatus e).isCancelled = false
        ∧ (getBuildStatus e).isSucceeded = strContains e.type "succeeded") := by
  refine ⟨?_, ?_, ?_, ?_⟩
  · simp [getBuildStatus, Bool.or_eq_true, beq_iff_eq]
  · simp [getBuildStatus, Bool.or_eq_true, beq_iff_eq]
  · simp [getBuildStatus, beq_iff_eq]
  · intro h
    simp [getBuildStatus, h]

/-- Witness for C3 (amended) at a concrete absent-outcome event. -/
theorem getBuildStatus_characterization_witness :
    (getBuildStatus nullOutcomePlainEvent).isFailed = false
    ∧ (getBuildStatus nullOutcomePlainEvent).isCancelled = false
    ∧ (getBuildStatus nullOutcomePlainEvent).isSucceeded
        = strContains nullOutcomePlainEvent.type "succeeded" :=
  (getBuildStatus_characterization nullOutcomePlainEvent).2.2.2 rfl

/-- C1 (code bug): for the cancelled-build event of the repository's own test
suite (`buildOutcome = "cancelled"`, classified with `isCancelled = true`),
both platform builders return the *failure* message, not the cancelled one:
the classifier marks cancelled builds as failed and `buildPayload` checks
`isFailed` before `isCancelled`, so the cancelled branch is unreachable.  The
Slack payload carries the "Build Failed" copy and renders an error code block
(`"No logs available"`, since no logs are fetched for cancelled builds), and
the Discord embed is titled with the failure copy. -/
theorem buildPayload_cancelled_renders_failure :
    (getBuildStatus cancelledEvent).isCancelled = true
    ∧ (getBuildStatus cancelledEvent).isFailed = true
    ∧ slackFirstText (slackBuildPayload cancelledData)
        = some "❌  *Build Failed*\n*test-worker*"
    ∧ (slackBuildPayload cancelledData).blocks.getLast?
        = some (SlackBlock.section { text := "```No logs available```", accessory := none })
    ∧ ((discordBuildPayload cancelledData).toOption.bind
          (fun dp => (discordFirstEmbed dp).bind (fun emb => emb.title)))
        = some "âťŚ Build Failed" := by
  refine ⟨by decide, by decide, by decide, by decide, by decide⟩

theorem discordTimestamp_ok (e : CloudflareEvent) (pp : BuildPayloadData)
    (mm : EventMetadata) (hp : e.payload = some pp) (hm : e.metadata = some mm) :
    ∃ ts, discordTimestamp e = Except.ok ts := by
  simp only [discordTimestamp, hp, hm]
  split
  · exact ⟨_, rfl⟩
  · exact ⟨_, rfl⟩

theorem discordBuildPayload_ok (data : NotificationData) (pp : BuildPayloadData)
    (mm : EventMetadata) (hp : data.event.payload = some pp)
    (hm : data.event.metadata = some mm) :
    ∃ dp, discordBuildPayload data = Except.ok dp := by
  obtain ⟨ts, hts⟩ := discordTimestamp_ok data.event pp mm hp hm
  simp only [discordBuildPayload, discordBuildSuccessMessage,
    discordBuildFailureMessage, discordBuildCancelledMessage,
    discordBuildFallbackMessage, hts, hm]
  split
  · exact ⟨_, rfl⟩
  · split
    · exact ⟨_, rfl⟩
    · split
      · exact ⟨_, rfl⟩
      · exact ⟨_, rfl⟩

theorem buildPayloadOf_ok (p : Platform) (data : NotificationData)
    (pp : BuildPayloadData) (mm : EventMetadata)
    (hp : data.event.payload = some pp) (hm : data.event.metadata = some mm) :
    ∃ pl, buildPayloadOf p data = Except.ok pl := by
  cases p with
  | slack => exact ⟨_, rfl⟩
  | lark => exact ⟨_, rfl⟩
  | discord =>
    obtain ⟨dp, hdp⟩ := discordBuildPayload_ok data pp mm hp hm
    exact ⟨Payload.discord dp, by simp [buildPayloadOf, hdp, Except.map]⟩

theorem runNotifier_mem_platform (data : NotificationData)
    (sendOutcome : Platform → Except String Unit) (q : Platform) (x : Call)
    (hx : x ∈ (runNotifier data sendOutcome q).1) : callPlatform x = some q := by
  unfold runNotifier at hx
  rcases hb : buildPayloadOf q data with msg | pl
  · rw [hb] at hx
    simp at hx
    subst hx
    rfl
  · rw [hb] at hx
    rcases hs : sendOutcome q with msg | u
    · rw [hs] at hx
      simp at hx
      rcases hx with h | h <;> (subst h; rfl)
    · rw [hs] at hx
      simp at hx
      rcases hx with h | h <;> (subst h; rfl)

theorem runNotifier_count_self (data : NotificationData)
    (sendOutcome : Platform → Except String Unit) (p : Platform) (pl : Payload)
    (h : buildPayloadOf p data = Except.ok pl) :
    (runNotifier data sendOutcome p).1.count (Call.callBuild p) = 1
    ∧ (runNotifier data sendOutcome p).1.count (Call.callSend p pl) = 1 := by
  unfold runNotifier
  rw [h]
  rcases hs : sendOutcome p with msg | u <;>
    simp [List.count_cons, List.count_nil]

/-- One iteration chunk of the coordinator loop for platform `q`. -/
theorem chunk_count_other (data : NotificationData) (env : Env)
    (sendOutcome : Platform → Except String Unit) (c : Call) (p q : Platform)
    (hc : callPlatform c = some p) (hpq : p ≠ q) :
    ((if notifierUrl env q == "" then []
      else (runNotifier data sendOutcome q).1).count c) = 0 := by
  split
  · rfl
  · refine List.count_eq_zero.mpr ?_
    intro hmem
    have := runNotifier_mem_platform data sendOutcome q c hmem
    rw [hc] at this
    exact hpq (Option.some_injective _ this)

theorem sendLoop_count_not_mem (data : NotificationData) (env : Env)
    (sendOutcome : Platform → Except String Unit) (c : Call) (p : Platform)
    (hc : callPlatform c = some p) :
    ∀ (ps : List Platform), p ∉ ps →
      (sendLoop data env sendOutcome ps).count c = 0 := by
  intro ps
  induction ps with
  | nil => intro _; rfl
  | cons q rest ih =>
    intro hnm
    have hq : p ≠ q := fun h => hnm (h ▸ List.mem_cons_self q rest)
    have hrest : p ∉ rest := fun h => hnm (List.mem_cons_of_mem q h)
    unfold sendLoop
    rw [List.count_append, chunk_count_other data env sendOutcome c p q hc hq, ih hrest]

theorem sendLoop_count_configured (data : NotificationData) (env : Env)
    (sendOutcome : Platform → Except String Unit) (c : Call) (p : Platform)
    (hc : callPlatform c = some p) (hcp : ¬(notifierUrl env p = "")) :
    ∀ (ps : List Platform), p ∈ ps → ps.Nodup →
      (sendLoop data env sendOutcome ps).count c
        = (runNotifier data sendOutcome p).1.count c := by
  intro ps
  induction ps with
  | nil => intro h; cases h
  | cons q rest ih =>
    intro hmem hnd
    rcases List.mem_cons.mp hmem with h | h
    · subst h
      have hrest : p ∉ rest := (List.nodup_cons.mp hnd).1
      unfold sendLoop
      rw [List.count_append,
        sendLoop_count_not_mem data env sendOutcome c p hc rest hrest]
      rw [if_neg (by simpa using hcp)]
      omega
    · have hq : p ≠ q := by
        intro hpq
        subst hpq
        exact (List.nodup_cons.mp hnd).1 h
      unfold sendLoop
      rw [List.count_append, chunk_count_other data env sendOutcome c p q hc hq,
        ih h (List.nodup_cons.mp hnd).2]
      omega

/-- C2: for well-formed notification data (the TypeScript `NotificationData`
type has non-optional `payload`/`metadata` on its event), whenever at least
two platforms are configured and one configured platform's send fails, every
other configured platform's `buildPayload` and `send` are still invoked
exactly once with that platform's own payload, and `sendNotifications`
returns normally (it is total here: each notifier's task catches its own
error) without logging the no-webhook warning. -/
theorem notifier_failure_isolation (data : NotificationData) (env : Env)
    (sendOutcome : Platform → Except String Unit) (p q : Platform)
    (pp : BuildPayloadData) (mm : EventMetadata) (err : String)
    (hp : data.event.payload = some pp) (hm : data.event.metadata = some mm)
    (hcp : notifierUrl env p ≠ "") (hcq : notifierUrl env q ≠ "") (hpq : p ≠ q)
    (hfail : sendOutcome q = Except.error err) :
    ∃ pl, buildPayloadOf p data = Except.ok pl
      ∧ (sendNotifications data env sendOutcome).1.count (Call.callBuild p) = 1
      ∧ (sendNotifications data env sendOutcome).1.count (Call.callSend p pl) = 1
      ∧ (sendNotifications data env sendOutcome).2 = false := by
  obtain ⟨pl, hpl⟩ := buildPayloadOf_ok p data pp mm hp hm
  have hmem : p ∈ NOTIFIERS := by cases p <;> simp [NOTIFIERS]
  have hnd : NOTIFIERS.Nodup := by decide
  refine ⟨pl, hpl, ?_, ?_, ?_⟩
  · show (sendLoop data env sendOutcome NOTIFIERS).count (Call.callBuild p) = 1
    rw [sendLoop_count_configured data env sendOutcome (Call.callBuild p) p rfl hcp
      NOTIFIERS hmem hnd]
    exact (runNotifier_count_self data sendOutcome p pl hpl).1
  · show (sendLoop data env sendOutcome NOTIFIERS).count (Call.callSend p pl) = 1
    rw [sendLoop_count_configured data env sendOutcome (Call.callSend p pl) p rfl hcp
      NOTIFIERS hmem hnd]
    exact (runNotifier_count_self data sendOutcome p pl hpl).2
  · show (configuredPlatforms env).isEmpty = false
    have hmemc : p ∈ configuredPlatforms env :=
      List.mem_filter.mpr ⟨hmem, by simp [hcp]⟩
    cases hcfg : configuredPlatforms env with
    | nil => rw [hcfg] at hmemc; cases hmemc
    | cons a l => rfl

/-- Witness for C2: Slack and Discord configured, Slack's send fails with an
HTTP 500, Discord is still built and sent exactly once. -/
theorem notifier_failure_isolation_witness :
    ∃ pl, buildPayloadOf Platform.discord succeededData = Except.ok pl
      ∧ (sendNotifications succeededData envSlackDiscord sendSlackFails).1.count
          (Call.callBuild Platform.discord) = 1
      ∧ (sendNotifications succeededData envSlackDiscord sendSlackFails).1.count
          (Call.callSend Platform.discord pl) = 1
      ∧ (sendNotifications succeededData envSlackDiscord sendSlackFails).2 = false :=
  notifier_failure_isolation succeededData envSlackDiscord sendSlackFails
    Platform.discord Platform.slack _ _ "Slack API error: 500"
    rfl rfl (by decide) (by decide) (by decide) rfl

/-- C7: with zero platforms configured (every webhook URL absent/empty),
`sendNotifications` completes normally with no `buildPayload` and no `send`
call (empty call trace) and records the warning. -/
theorem sendNotifications_zero_configured (data : NotificationData) (env : Env)
    (sendOutcome : Platform → Except String Unit)
    (h1 : env.SLACK_WEBHOOK_URL = "") (h2 : env.LARK_WEBHOOK_URL = "")
    (h3 : env.DISCORD_WEBHOOK_URL = "") :
    sendNotifications data env sendOutcome = ([], true) := by
  simp [sendNotifications, sendLoop, configuredPlatforms, NOTIFIERS, notifierUrl,
    h1, h2, h3]

/-- Witness for C7 at a concrete unconfigured environment. -/
theorem sendNotifications_zero_configured_witness :
    sendNotifications cancelledData envNone oraclesOk.sendOutcome = ([], true) :=
  sendNotifications_zero_configured cancelledData envNone oraclesOk.sendOutcome
    rfl rfl rfl

theorem processMessage_ack (orc : Oracles) (env : Env)
    (body : Option CloudflareEvent) : (processMessage orc env body).2 = 1 := by
  rcases body with _ | e
  · rfl
  · simp only [processMessage]
    repeat' split
    all_goals rfl

theorem queueLoop_acks (orc : Oracles) (env : Env) :
    ∀ (batch : List (Option CloudflareEvent)),
      (queueLoop orc env batch).2 = batch.map (fun _ => 1) := by
  intro batch
  induction batch with
  | nil => rfl
  | cons m rest ih =>
    unfold queueLoop
    simp only [List.map_cons]
    rw [processMessage_ack orc env m, ih]

/-- C10: for every message batch, every environment and every collaborator
behavior (including throwing fetchers and failing sends), the queue handler
returns normally (it is a total function: the per-message try/catch is
modelled inside `processMessage`) and acknowledges each message of the batch
exactly once — with no webhook configured, for invalid events, for skipped
started/queued events, on a caught enrichment error, and on success alike. -/
theorem queue_acks_each_message_once (orc : Oracles) (env : Env)
    (batch : List (Option CloudflareEvent)) :
    (queue orc env batch).2 = batch.map (fun _ => 1) := by
  unfold queue
  split
  · exact queueLoop_acks orc env batch
  · rfl

theorem enrichPhase_calls (orc : Oracles) (e : CloudflareEvent) (st : BuildStatus) :
    (enrichPhase orc e st).1
      = (if st.isSucceeded then [Call.callFetchUrls]
         else if st.isFailed && !st.isCancelled then [Call.callFetchLogs]
         else []) := by
  unfold enrichPhase
  split
  · split <;> rfl
  · split
    · split <;> rfl
    · rfl

theorem sendLoop_count_no_platform (data : NotificationData) (env : Env)
    (sendOutcome : Platform → Except String Unit) (c : Call)
    (hc : callPlatform c = none) :
    ∀ (ps : List Platform), (sendLoop data env sendOutcome ps).count c = 0 := by
  intro ps
  induction ps with
  | nil => rfl
  | cons q rest ih =>
    unfold sendLoop
    rw [List.count_append, ih]
    have hz : ((if notifierUrl env q == "" then []
        else (runNotifier data sendOutcome q).1).count c) = 0 := by
      split
      · rfl
      · refine List.count_eq_zero.mpr ?_
        intro hmem
        have := runNotifier_mem_platform data sendOutcome q c hmem
        rw [hc] at this
        cases this
    rw [hz]

/-- C6 (amended): for a structurally valid, non-skipped event, the queue
handler calls each enrichment fetcher at most once: `fetchBuildUrls` exactly
when the classified status has `isSucceeded`, and `fetchBuildLogs` exactly
when the status is not succeeded, failed and not cancelled (the handler's
`else if`); for a cancelled event that is not also classified succeeded,
neither fetcher is called.  (The unamended claim fails for events whose type
contains "succeeded" while the outcome is "cancelled" — see the
counterexample — because the classifier's type clause makes such events
succeeded and URL enrichment runs.) -/
theorem enrichment_fetch_calls (orc : Oracles) (env : Env) (e : CloudflareEvent)
    (pp : BuildPayloadData) (mm : EventMetadata)
    (hp : e.payload = some pp) (hm : e.metadata = some mm) (ht : e.type ≠ "")
    (hs1 : strContains e.type "started" = false)
    (hs2 : strContains e.type "queued" = false) :
    ((processMessage orc env (some e)).1.count Call.callFetchUrls
        = if (getBuildStatus e).isSucceeded then 1 else 0)
    ∧ ((processMessage orc env (some e)).1.count Call.callFetchLogs
        = if !(getBuildStatus e).isSucceeded
            && ((getBuildStatus e).isFailed && !(getBuildStatus e).isCancelled)
          then 1 else 0)
    ∧ ((getBuildStatus e).isCancelled = true → (getBuildStatus e).isSucceeded = false →
        (processMessage orc env (some e)).1.count Call.callFetchUrls = 0
        ∧ (processMessage orc env (some e)).1.count Call.callFetchLogs = 0) := by
  have h1 : (e.type == "") = false := by simp [ht]
  have h2 : (e.payload == none) = false := by simp [hp]
  have h3 : (e.metadata == none) = false := by simp [hm]
  have h4 : (strContains e.type "started" || strContains e.type "queued") = false := by
    simp [hs1, hs2]
  have hcount : ∀ c, callPlatform c = none →
      (processMessage orc env (some e)).1.count c
        = ((if (getBuildStatus e).isSucceeded then [Call.callFetchUrls]
            else if (getBuildStatus e).isFailed && !(getBuildStatus e).isCancelled
              then [Call.callFetchLogs]
            else []).count c) := by
    intro c hc
    rcases henr : enrichPhase orc e (getBuildStatus e) with ⟨calls, res⟩
    have hcalls : calls
        = (if (getBuildStatus e).isSucceeded then [Call.callFetchUrls]
           else if (getBuildStatus e).isFailed && !(getBuildStatus e).isCancelled
              then [Call.callFetchLogs]
           else []) := by
      have := enrichPhase_calls orc e (getBuildStatus e)
      rw [henr] at this
      simpa using this
    rcases res with msg | ⟨pu, lu, lgs⟩
    · simp only [processMessage, h1, h2, h3, h4, henr, Bool.false_eq_true,
        if_false]
      rw [hcalls]
    · simp only [processMessage, sendNotifications, h1, h2, h3, h4, henr,
        Bool.false_eq_true, if_false]
      rw [List.count_append, hcalls,
        sendLoop_count_no_platform _ env orc.sendOutcome c hc NOTIFIERS]
      omega
  have hu := hcount Call.callFetchUrls rfl
  have hl := hcount Call.callFetchLogs rfl
  refine ⟨?_, ?_, ?_⟩
  · rw [hu]
    cases hsb : (getBuildStatus e).isSucceeded <;>
      cases hfb : (getBuildStatus e).isFailed && !(getBuildStatus e).isCancelled <;>
      simp
  · rw [hl]
    cases hsb : (getBuildStatus e).isSucceeded <;>
      cases hfb : (getBuildStatus e).isFailed && !(getBuildStatus e).isCancelled <;>
      simp
  · intro hcanc hsucc
    constructor
    · rw [hu, hsucc]
      simp [hcanc]
    · rw [hl, hsucc]
      simp [hcanc]

/-- Witness for C6 (amended) at the succeeded mock event: exactly one URL
fetch, no log fetch. -/
theorem enrichment_fetch_calls_witness :
    ((processMessage oraclesOk envSlackOnly (some succeededEvent)).1.count
        Call.callFetchUrls
      = if (getBuildStatus succeededEvent).isSucceeded then 1 else 0)
    ∧ ((processMessage oraclesOk envSlackOnly (some succeededEvent)).1.count
        Call.callFetchLogs
      = if !(getBuildStatus succeededEvent).isSucceeded
          && ((getBuildStatus succeededEvent).isFailed
              && !(getBuildStatus succeededEvent).isCancelled)
        then 1 else 0)
    ∧ ((getBuildStatus succeededEvent).isCancelled = true →
        (getBuildStatus succeededEvent).isSucceeded = false →
        (processMessage oraclesOk envSlackOnly (some succeededEvent)).1.count
            Call.callFetchUrls = 0
        ∧ (processMessage oraclesOk envSlackOnly (some succeededEvent)).1.count
            Call.callFetchLogs = 0) :=
  enrichment_fetch_calls oraclesOk envSlackOnly succeededEvent _ _
    rfl rfl (by decide) (by decide) (by decide)

/-- Counterexample for C6 as stated: a structurally valid, non-skipped event
whose outcome is "cancelled" but whose type contains "succeeded" is classified
both cancelled and succeeded, and the queue handler does call
`fetchBuildUrls` for it. -/
theorem enrichment_cancelled_fetch_cex :
    (getBuildStatus succeededTypeCancelledEvent).isCancelled = true
    ∧ (processMessage oraclesOk envSlackOnly
          (some succeededTypeCancelledEvent)).1.count Call.callFetchUrls = 1 := by
  refine ⟨by decide, by decide⟩

theorem buildContextElements_eq_map (e : CloudflareEvent) :
    buildContextElements e = (metadataItems e).map renderSlackItem := by
  simp only [buildContextElements, metadataItems]
  split_ifs <;> simp [renderSlackItem]

theorem buildMetadataFields_eq_map (e : CloudflareEvent) :
    buildMetadataFields e = (metadataItems e).map renderDiscordItem := by
  simp only [buildMetadataFields, metadataItems]
  split_ifs <;> simp [renderDiscordItem]

theorem slackFirstText_buildSection (t : String) (bt bu bs : Option String)
    (rest : List SlackBlock) :
    slackFirstText { blocks := buildSectionBlock t bt bu bs :: rest } = some t := by
  unfold buildSectionBlock
  split <;> rfl

theorem slackFirstAccessory_buildSection (t : String) (bt bu bs : Option String)
    (rest : List SlackBlock) :
    slackFirstAccessory { blocks := buildSectionBlock t bt bu bs :: rest }
      = (if jsTruthy bt && jsTruthy bu then
          some { text := bt.getD "", url := bu.getD ""
                 style := if jsTruthy bs then bs else none }
        else none) := by
  unfold buildSectionBlock
  split
  · rename_i h
    simp only [slackFirstAccessory, if_pos h]
  · rename_i h
    simp only [slackFirstAccessory, if_neg h]

theorem jsTruthy_some_getD (o : Option String) (h : jsTruthy o = true) :
    some (o.getD "") = o := by
  cases o with
  | none => cases h
  | some s => rfl

theorem slackKind_eq_of_first (p : SlackPayload) (t : String)
    (h : slackFirstText p = some t) :
    slackKind p
      = (if strStarts t "✅" then some MsgKind.success
        else if strStarts t "❌" then some MsgKind.failure
        else if strStarts t "⚠️" then some MsgKind.cancelled
        else if strStarts t "📢" then some MsgKind.fallback
        else none) := by
  unfold slackKind
  rw [h]

theorem slackKind_success (e : CloudflareEvent) (prod : Bool)
    (pu lu : Option String) :
    slackKind (slackBuildSuccessMessage e prod pu lu) = some MsgKind.success := by
  have hf : slackFirstText (slackBuildSuccessMessage e prod pu lu)
      = some ("✅  *" ++ (if prod then "Production Deploy" else "Preview Deploy")
          ++ "*\n*" ++ workerNameOf e ++ "*") := by
    unfold slackBuildSuccessMessage
    simp only [List.singleton_append]
    exact slackFirstText_buildSection _ _ _ _ _
  rw [slackKind_eq_of_first _ _ hf]
  rw [String.append_assoc, String.append_assoc, String.append_assoc,
    strStarts_append_left _ _ "✅" (by decide)]
  rw [if_pos (show strStarts "✅  *" "✅" = true by decide)]

theorem slackKind_failure (e : CloudflareEvent) (logs : List String) :
    slackKind (slackBuildFailureMessage e logs) = some MsgKind.failure := by
  have hf : slackFirstText (slackBuildFailureMessage e logs)
      = some ("❌  *Build Failed*\n*" ++ workerNameOf e ++ "*") := by
    unfold slackBuildFailureMessage
    simp only [List.singleton_append, List.cons_append]
    exact slackFirstText_buildSection _ _ _ _ _
  rw [slackKind_eq_of_first _ _ hf]
  rw [String.append_assoc,
    strStarts_append_left _ _ "✅" (by decide),
    strStarts_append_left _ _ "❌" (by decide)]
  rw [if_neg (show ¬strStarts "❌  *Build Failed*\n*" "✅" = true by decide)]
  rw [if_pos (show strStarts "❌  *Build Failed*\n*" "❌" = true by decide)]

theorem slackKind_cancelled (e : CloudflareEvent) :
    slackKind (slackBuildCancelledMessage e) = some MsgKind.cancelled := by
  have hf : slackFirstText (slackBuildCancelledMessage e)
      = some ("⚠️  *Build Cancelled*\n*" ++ workerNameOf e ++ "*") := by
    unfold slackBuildCancelledMessage
    simp only [List.singleton_append]
    exact slackFirstText_buildSection _ _ _ _ _
  rw [slackKind_eq_of_first _ _ hf]
  rw [String.append_assoc,
    strStarts_append_left _ _ "✅" (by decide),
    strStarts_append_left _ _ "❌" (by decide),
    strStarts_append_left _ _ "⚠️" (by decide)]
  rw [if_neg (show ¬strStarts "⚠️  *Build Cancelled*\n*" "✅" = true by decide)]
  rw [if_neg (show ¬strStarts "⚠️  *Build Cancelled*\n*" "❌" = true by decide)]
  rw [if_pos (show strStarts "⚠️  *Build Cancelled*\n*" "⚠️" = true by decide)]

theorem slackKind_fallback (e : CloudflareEvent) :
    slackKind (slackBuildFallbackMessage e) = some MsgKind.fallback := by
  have hf : slackFirstText (slackBuildFallbackMessage e)
      = some ("📢 " ++ (if e.type == "" then "Unknown event" else e.type)) := rfl
  rw [slackKind_eq_of_first _ _ hf]
  rw [strStarts_append_left _ _ "✅" (by decide),
    strStarts_append_left _ _ "❌" (by decide),
    strStarts_append_left _ _ "⚠️" (by decide),
    strStarts_append_left _ _ "📢" (by decide)]
  rw [if_neg (show ¬strStarts "📢 " "✅" = true by decide)]
  rw [if_neg (show ¬strStarts "📢 " "❌" = true by decide)]
  rw [if_neg (show ¬strStarts "📢 " "⚠️" = true by decide)]
  rw [if_pos (show strStarts "📢 " "📢" = true by decide)]

theorem discordKind_eq_of_title (p : DiscordPayload) (t : String)
    (h : (discordFirstEmbed p).bind (fun emb => emb.title) = some t) :
    discordKind p
      = (if strStarts t "âś" then some MsgKind.success
        else if strStarts t "âť" then some MsgKind.failure
        else if strStarts t "âš" then some MsgKind.cancelled
        else if strStarts t "đź" then some MsgKind.fallback
        else none) := by
  unfold discordKind
  rw [h]

theorem discord_success_shape (e : CloudflareEvent) (prod : Bool)
    (pu lu : Option String) (dp : DiscordPayload)
    (h : discordBuildSuccessMessage e prod pu lu = Except.ok dp) :
    discordKind dp = some MsgKind.success
    ∧ (discordFirstEmbed dp).bind (fun emb => emb.url)
        = (if jsTruthy (if prod then jsOr lu (getDashboardUrl e)
              else jsOr pu (getDashboardUrl e)) then
            (if prod then jsOr lu (getDashboardUrl e) else jsOr pu (getDashboardUrl e))
          else none) := by
  unfold discordBuildSuccessMessage at h
  rcases hts : discordTimestamp e with msg | ts
  · rw [hts] at h
    simp at h
  · rw [hts] at h
    injection h with h2
    have htitle : (discordFirstEmbed dp).bind (fun emb => emb.title)
        = some ("âś… " ++ (if prod then "Production Deploy" else "Preview Deploy")) := by
      rw [← h2]
      rfl
    constructor
    · rw [discordKind_eq_of_title dp _ htitle]
      rw [strStarts_append_left _ _ "âś" (by decide)]
      rw [if_pos (show strStarts "âś… " "âś" = true by decide)]
    · rw [← h2]
      rfl

theorem discord_failure_kind (e : CloudflareEvent) (logs : List String)
    (dp : DiscordPayload) (h : discordBuildFailureMessage e logs = Except.ok dp) :
    discordKind dp = some MsgKind.failure := by
  unfold discordBuildFailureMessage at h
  rcases hts : discordTimestamp e with msg | ts
  · rw [hts] at h
    simp at h
  · rw [hts] at h
    injection h with h2
    have htitle : (discordFirstEmbed dp).bind (fun emb => emb.title)
        = some "âťŚ Build Failed" := by
      rw [← h2]
      rfl
    rw [discordKind_eq_of_title dp _ htitle]
    rw [if_neg (show ¬strStarts "âťŚ Build Failed" "âś" = true by decide)]
    rw [if_pos (show strStarts "âťŚ Build Failed" "âť" = true by decide)]

theorem discord_cancelled_kind (e : CloudflareEvent) (dp : DiscordPayload)
    (h : discordBuildCancelledMessage e = Except.ok dp) :
    discordKind dp = some MsgKind.cancelled := by
  unfold discordBuildCancelledMessage at h
  rcases hts : discordTimestamp e with msg | ts
  · rw [hts] at h
    simp at h
  · rw [hts] at h
    injection h with h2
    have htitle : (discordFirstEmbed dp).bind (fun emb => emb.title)
        = some "âš ď¸Ź Build Cancelled" := by
      rw [← h2]
      rfl
    rw [discordKind_eq_of_title dp _ htitle]
    rw [if_neg (show ¬strStarts "âš ď¸Ź Build Cancelled" "âś" = true by decide)]
    rw [if_neg (show ¬strStarts "âš ď¸Ź Build Cancelled" "âť" = true by decide)]
    rw [if_pos (show strStarts "âš ď¸Ź Build Cancelled" "âš" = true by decide)]

theorem discord_fallback_kind (e : CloudflareEvent) (dp : DiscordPayload)
    (h : discordBuildFallbackMessage e = Except.ok dp) :
    discordKind dp = some MsgKind.fallback := by
  unfold discordBuildFallbackMessage at h
  rcases hmm : e.metadata with _ | mm
  · rw [hmm] at h
    simp at h
  · rw [hmm] at h
    injection h with h2
    have htitle : (discordFirstEmbed dp).bind (fun emb => emb.title)
        = some "đź“˘ Build Event" := by
      rw [← h2]
      rfl
    rw [discordKind_eq_of_title dp _ htitle]
    rw [if_neg (show ¬strStarts "đź“˘ Build Event" "âś" = true by decide)]
    rw [if_neg (show ¬strStarts "đź“˘ Build Event" "âť" = true by decide)]
    rw [if_neg (show ¬strStarts "đź“˘ Build Event" "âš" = true by decide)]
    rw [if_pos (show strStarts "đź“˘ Build Event" "đź" = true by decide)]

theorem payload_kind_and_link_parity (e : CloudflareEvent) (pp : BuildPayloadData)
    (mm : EventMetadata) (pu lu : Option String) (lgs : List String)
    (hp : e.payload = some pp) (hm : e.metadata = some mm) :
    ∃ dp k, discordBuildPayload { event := e, previewUrl := pu, liveUrl := lu, logs := lgs }
        = Except.ok dp
      ∧ slackKind (slackBuildPayload { event := e, previewUrl := pu, liveUrl := lu, logs := lgs })
          = some k
      ∧ discordKind dp = some k
      ∧ (k = MsgKind.success →
          (slackFirstAccessory
              (slackBuildPayload { event := e, previewUrl := pu, liveUrl := lu, logs := lgs })).map
              (fun b => b.url)
            = (discordFirstEmbed dp).bind (fun emb => emb.url)) := by
  obtain ⟨ts, hts⟩ := discordTimestamp_ok e pp mm hp hm
  have hs : slackBuildPayload { event := e, previewUrl := pu, liveUrl := lu, logs := lgs }
      = (if (getBuildStatus e).isSucceeded then
          slackBuildSuccessMessage e
            (isProductionBranch ((e.payload.bind (fun p => p.buildTriggerMetadata)).bind
              (fun m => m.branch))) pu lu
        else if (getBuildStatus e).isFailed then slackBuildFailureMessage e lgs
        else if (getBuildStatus e).isCancelled then slackBuildCancelledMessage e
        else slackBuildFallbackMessage e) := rfl
  have hd : discordBuildPayload { event := e, previewUrl := pu, liveUrl := lu, logs := lgs }
      = (if (getBuildStatus e).isSucceeded then
          discordBuildSuccessMessage e
            (isProductionBranch ((e.payload.bind (fun p => p.buildTriggerMetadata)).bind
              (fun m => m.branch))) pu lu
        else if (getBuildStatus e).isFailed then discordBuildFailureMessage e lgs
        else if (getBuildStatus e).isCancelled then discordBuildCancelledMessage e
        else discordBuildFallbackMessage e) := rfl
  by_cases h1 : (getBuildStatus e).isSucceeded = true
  · rw [hs, hd, if_pos h1, if_pos h1]
    rcases hok : discordBuildSuccessMessage e
        (isProductionBranch ((e.payload.bind (fun p => p.buildTriggerMetadata)).bind
          (fun m => m.branch))) pu lu with msg | dp
    · unfold discordBuildSuccessMessage at hok
      rw [hts] at hok
      simp at hok
    · obtain ⟨hk, hurl⟩ := discord_success_shape e _ pu lu dp hok
      refine ⟨dp, MsgKind.success, rfl, slackKind_success e _ pu lu, hk, ?_⟩
      intro _
      rw [hurl]
      unfold slackBuildSuccessMessage
      simp only [List.singleton_append]
      rw [slackFirstAccessory_buildSection]
      have hbt : jsTruthy (some
          (if isProductionBranch ((e.payload.bind (fun p => p.buildTriggerMetadata)).bind
              (fun m => m.branch)) then
            (if jsTruthy lu then "View Worker" else "View Build")
          else (if jsTruthy pu then "View Preview" else "View Build"))) = true := by
        split_ifs <;> decide
      rw [hbt, Bool.true_and]
      cases hbu : jsTruthy
          (if isProductionBranch ((e.payload.bind (fun p => p.buildTriggerMetadata)).bind
              (fun m => m.branch)) then jsOr lu (getDashboardUrl e)
          else jsOr pu (getDashboardUrl e)) with
      | false => simp [hbu]
      | true => simp [hbu, jsTruthy_some_getD _ hbu]
  · by_cases h2 : (getBuildStatus e).isFailed = true
    · rw [hs, hd, if_neg h1, if_neg h1, if_pos h2, if_pos h2]
      rcases hok : discordBuildFailureMessage e lgs with msg | dp
      · unfold discordBuildFailureMessage at hok
        rw [hts] at hok
        simp at hok
      · refine ⟨dp, MsgKind.failure, rfl, slackKind_failure e lgs,
          discord_failure_kind e lgs dp hok, ?_⟩
        intro hcontra
        exact absurd hcontra (by decide)
    · by_cases h3 : (getBuildStatus e).isCancelled = true
      · rw [hs, hd, if_neg h1, if_neg h1, if_neg h2, if_neg h2, if_pos h3, if_pos h3]
        rcases hok : discordBuildCancelledMessage e with msg | dp
        · unfold discordBuildCancelledMessage at hok
          rw [hts] at hok
          simp at hok
        · refine ⟨dp, MsgKind.cancelled, rfl, slackKind_cancelled e,
            discord_cancelled_kind e dp hok, ?_⟩
          intro hcontra
          exact absurd hcontra (by decide)
      · rw [hs, hd, if_neg h1, if_neg h1, if_neg h2, if_neg h2, if_neg h3, if_neg h3]
        rcases hok : discordBuildFallbackMessage e with msg | dp
        · unfold discordBuildFallbackMessage at hok
          rw [hm] at hok
          simp at hok
        · refine ⟨dp, MsgKind.fallback, rfl, slackKind_fallback e,
            discord_fallback_kind e dp hok, ?_⟩
          intro hcontra
          exact absurd hcontra (by decide)

/-- C8: for well-formed notification data, the Slack and Discord builders
render the same semantic content: the Slack context elements and the Discord
metadata fields are the two renderings of one shared item list (same branch
string, same 7-character commit-hash prefix with the same optional commit
link, same author display name, in the same order); the two payloads carry the
same message kind; and in the success kind the primary action link (Slack
button URL, Discord embed URL) is the same, following the same
live/preview-then-dashboard priority. -/
theorem cross_platform_content_parity (e : CloudflareEvent) (pp : BuildPayloadData)
    (mm : EventMetadata) (pu lu : Option String) (lgs : List String)
    (hp : e.payload = some pp) (hm : e.metadata = some mm) :
    buildContextElements e = (metadataItems e).map renderSlackItem
    ∧ buildMetadataFields e = (metadataItems e).map renderDiscordItem
    ∧ ∃ dp k, discordBuildPayload { event := e, previewUrl := pu, liveUrl := lu, logs := lgs }
        = Except.ok dp
      ∧ slackKind (slackBuildPayload { event := e, previewUrl := pu, liveUrl := lu, logs := lgs })
          = some k
      ∧ discordKind dp = some k
      ∧ (k = MsgKind.success →
          (slackFirstAccessory
              (slackBuildPayload { event := e, previewUrl := pu, liveUrl := lu, logs := lgs })).map
              (fun b => b.url)
            = (discordFirstEmbed dp).bind (fun emb => emb.url)) :=
  ⟨buildContextElements_eq_map e, buildMetadataFields_eq_map e,
    payload_kind_and_link_parity e pp mm pu lu lgs hp hm⟩

/-- Witness for C8 at the succeeded mock event. -/
theorem cross_platform_content_parity_witness :
    buildContextElements succeededEvent
        = (metadataItems succeededEvent).map renderSlackItem
    ∧ buildMetadataFields succeededEvent
        = (metadataItems succeededEvent).map renderDiscordItem
    ∧ ∃ dp k, discordBuildPayload
          { event := succeededEvent, previewUrl := none
            liveUrl := some "https://test-worker.my-account.workers.dev", logs := [] }
        = Except.ok dp
      ∧ slackKind (slackBuildPayload
          { event := succeededEvent, previewUrl := none
            liveUrl := some "https://test-worker.my-account.workers.dev", logs := [] })
          = some k
      ∧ discordKind dp = some k
      ∧ (k = MsgKind.success →
          (slackFirstAccessory (slackBuildPayload
              { event := succeededEvent, previewUrl := none
                liveUrl := some "https://test-worker.my-account.workers.dev", logs := [] })).map
              (fun b => b.url)
            = (discordFirstEmbed dp).bind (fun emb => emb.url)) :=
  cross_platform_content_parity succeededEvent _ _ none
    (some "https://test-worker.my-account.workers.dev") [] rfl rfl

/-- C9: for well-formed notification data (event with non-null payload and
metadata), every platform builder produces a payload without raising, even
with `buildTriggerMetadata`, `workerName` and both URLs absent and `logs`
empty: Discord's builder (the only one whose unguarded property accesses could
raise) returns `Except.ok`, Slack's builder always produces a payload of one
of the four message kinds, and absent optional metadata degrades to omitted
fields (empty context elements / metadata fields), never to an exception. -/
theorem buildPayload_total_graceful (e : CloudflareEvent) (pp : BuildPayloadData)
    (mm : EventMetadata) (pu lu : Option String) (lgs : List String)
    (hp : e.payload = some pp) (hm : e.metadata = some mm) :
    (∃ dp, discordBuildPayload { event := e, previewUrl := pu, liveUrl := lu, logs := lgs }
        = Except.ok dp)
    ∧ (∃ k, slackKind (slackBuildPayload
        { event := e, previewUrl := pu, liveUrl := lu, logs := lgs }) = some k)
    ∧ (pp.buildTriggerMetadata = none →
        buildContextElements e = [] ∧ buildMetadataFields e = []) := by
  obtain ⟨dp, k, hdp, hsk, _, _⟩ :=
    payload_kind_and_link_parity e pp mm pu lu lgs hp hm
  refine ⟨⟨dp, hdp⟩, ⟨k, hsk⟩, ?_⟩
  intro hmeta
  constructor
  · simp [buildContextElements, hp, hmeta, extractAuthorName, jsTruthy]
  · simp [buildMetadataFields, hp, hmeta, extractAuthorName, jsTruthy]

/-- Witness for C9 at an event with every optional field absent. -/
theorem buildPayload_total_graceful_witness :
    (∃ dp, discordBuildPayload
        { event := minimalEvent, previewUrl := none, liveUrl := none, logs := [] }
        = Except.ok dp)
    ∧ (∃ k, slackKind (slackBuildPayload
        { event := minimalEvent, previewUrl := none, liveUrl := none, logs := [] })
        = some k)
    ∧ (minimalPayload.buildTriggerMetadata = none →
        buildContextElements minimalEvent = [] ∧ buildMetadataFields minimalEvent = []) :=
  buildPayload_total_graceful minimalEvent minimalPayload _ none none [] rfl rfl
